import Mathlib

/-!
# Verification of the authenticated API client (blog-frontend)

Shallow embedding of `src/services/apiService.ts` (the `ApiService` class:
token store access, HTTP error normalization, the 401/refresh coordinator)
and the relevant parts of `AuthContext`.  Browser `localStorage` is modelled
as an association list of string keys and values; the single-threaded
event-loop behaviour of the refresh cycle is modelled as explicit state
passing plus an event trace.
-/

namespace BlogFrontend

/-! ## Browser storage (`localStorage`) -/

/-- Browser `localStorage` modelled as an association list of string keys/values.
`setItem` replaces in place, `getItem` returns the first binding,
`removeItem` deletes all bindings for the key. -/
abbrev LocalStorage : Type := List (String × String)

/-- Read `localStorage.getItem(k)`; `none` models JavaScript `null`. -/
def getItem (st : LocalStorage) (k : String) : Option String :=
  (List.find? (fun kv => kv.1 = k) st).map Prod.snd

/-- Write `localStorage.setItem(k, v)`: overwrite the binding for `k` in place,
or append a fresh binding. -/
def setItem (st : LocalStorage) (k v : String) : LocalStorage :=
  match st with
  | [] => [(k, v)]
  | kv :: rest => if kv.1 = k then (k, v) :: rest else kv :: setItem rest k v

/-- Delete `localStorage.removeItem(k)`. -/
def removeItem (st : LocalStorage) (k : String) : LocalStorage :=
  List.filter (fun kv => !(kv.1 = k : Bool)) st

/-- JavaScript truthiness of `localStorage.getItem` results: `null` and the
empty string are falsy (used by `if (token)`, `if (!refreshToken)`, …). -/
def truthy : Option String → Bool
  | none => false
  | some s => !(s = "" : Bool)

/-! ## JavaScript `parseInt` (decimal, as used by `isAuthenticated`) -/

/-- Longest leading run of decimal digits. -/
def leadingDigits : List Char → List Char
  | [] => []
  | c :: cs => if c.isDigit then c :: leadingDigits cs else []

/-- Value of a digit list, `none` when empty (`parseInt` returns `NaN`). -/
def digitsVal? (ds : List Char) : Option Nat :=
  match ds with
  | [] => none
  | _ => some (ds.foldl (fun acc c => 10 * acc + (c.toNat - '0'.toNat)) 0)

/-- JavaScript `parseInt(s)` with radix 10: skips leading whitespace,
accepts an optional sign, parses the longest digit prefix; `none` models
`NaN`. -/
def parseIntJS (s : String) : Option Int :=
  match s.toList.dropWhile Char.isWhitespace with
  | '-' :: rest => (digitsVal? (leadingDigits rest)).map (fun n => -(n : Int))
  | '+' :: rest => (digitsVal? (leadingDigits rest)).map (fun n => (n : Int))
  | cs => (digitsVal? (leadingDigits cs)).map (fun n => (n : Int))

/-! ## Data model (`types.ts`) -/

/-- Shape `AuthenticationResponse` from `types.ts`: shape of the login,
registration and refresh responses. -/
structure AuthenticationResponse where
  accessToken : String
  refreshToken : String
  tokenType : String
  expiresIn : Int
  deriving Repr, DecidableEq

/-- One field-level error inside `ApiError.errors`. -/
structure FieldError where
  field : String
  message : String
  deriving Repr, DecidableEq

/-- Shape `ApiError` from `types.ts`: the normalized error shape
`{status, message, optional field-level errors}`. -/
structure ApiError where
  status : Nat
  message : String
  errors : Option (List FieldError) := none
  deriving Repr, DecidableEq

/-! ## Token store operations of `ApiService` -/

/-- The four writes of `ApiService.login` (lines 200–203): key/value pairs
stored into `localStorage`, in program order. -/
def loginWrites (r : AuthenticationResponse) : List (String × String) :=
  [("accessToken", r.accessToken),
   ("refreshToken", r.refreshToken),
   ("tokenType", r.tokenType),
   ("expiresIn", toString r.expiresIn)]

/-- Effect of `ApiService.login` on `localStorage` after a successful
response `r`: the four `setItem` calls in order. -/
def login_store (st : LocalStorage) (r : AuthenticationResponse) : LocalStorage :=
  (loginWrites r).foldl (fun s kv => setItem s kv.1 kv.2) st

/-- The four keys removed by `ApiService.clearTokens` (lines 189–192),
in program order. -/
def clearTokensKeys : List String :=
  ["accessToken", "refreshToken", "tokenType", "expiresIn"]

/-- Effect of `ApiService.clearTokens`: the four `removeItem` calls in order. -/
def clearTokens (st : LocalStorage) : LocalStorage :=
  clearTokensKeys.foldl removeItem st

/-- Token writes of the refresh success path (lines 87–88): only
`accessToken` and `refreshToken` are stored. -/
def refresh_store (st : LocalStorage) (r : AuthenticationResponse) : LocalStorage :=
  setItem (setItem st "accessToken" r.accessToken) "refreshToken" r.refreshToken

/-- Modelled from the spec: `ApiService.register` is called from
`AuthContext.register` but its body is not among the sources; per the spec
(§3) the persisted TokenPair is "overwritten on login, refresh, and
registration", so registration storage is modelled like `login`'s: all four
fields written. -/
def register_store (st : LocalStorage) (r : AuthenticationResponse) : LocalStorage :=
  (loginWrites r).foldl (fun s kv => setItem s kv.1 kv.2) st

/-- Embedding of `ApiService.isAuthenticated` (lines 296–309): reads `accessToken` and
`expiresIn`, returns `false` when either is absent/falsy, otherwise compares
`Date.now()` with `parseInt(expiresIn)` (a comparison with `NaN` is false). -/
def isAuthenticated (st : LocalStorage) (now : Int) : Bool :=
  let token := getItem st "accessToken"
  let expiresIn := getItem st "expiresIn"
  if !truthy token || !truthy expiresIn then
    false
  else
    match expiresIn.getD "" |> parseIntJS with
    | some expirationTime => decide (now < expirationTime)
    | none => false

/-- Spec-side definition, from the spec's words only (§3): "a non-expired
TokenPair exists" — all four persisted fields of the TokenPair
(`accessToken`, `refreshToken`, `tokenType`, expiry) are present in the
store and the expiry instant lies in the future. -/
def nonExpiredTokenPairExists (st : LocalStorage) (now : Int) : Bool :=
  (getItem st "accessToken").isSome &&
  (getItem st "refreshToken").isSome &&
  (getItem st "tokenType").isSome &&
  (match (getItem st "expiresIn").bind parseIntJS with
   | some t => decide (now < t)
   | none => false)

/-! ## Error normalization (`handleError`) -/

/-- The error half of a settled axios response: `error.response`, carrying
`status` and (when the backend sent a structured body) `data`.  A falsy /
unstructured body is modelled as `none`. -/
structure ErrResponse where
  status : Nat
  data : Option ApiError
  deriving Repr, DecidableEq

/-- Per-request retry marker and request identity (`ExtendedAxiosRequestConfig`):
`_retry` plus the `Authorization` header slot. -/
structure RequestConfig where
  id : Nat
  retry : Bool
  authHeader : Option String
  deriving Repr, DecidableEq

/-- Shape of `AxiosError` as seen by the response interceptor: optional `response`
(absent on transport errors), the transport `message`, and the originating
request `config`. -/
structure AxiosErr where
  response : Option ErrResponse
  message : String
  config : Option RequestConfig
  deriving Repr, DecidableEq

/-- Embedding of `ApiService.handleError` (lines 178–186): return the structured backend
payload when present, else fall back to `{status: response.status || 500,
message: error.message || default}`. -/
def handleError (e : AxiosErr) : ApiError :=
  match e.response.bind (·.data) with
  | some d => d
  | none =>
    { status := match e.response with
        | some r => if r.status = 0 then 500 else r.status
        | none => 500
      message := if e.message = "" then "An unexpected error occurred" else e.message
      errors := none }

/-! ## Refresh coordinator (response interceptor, lines 63–151) -/

/-- Coordinator state of `ApiService`: the `isRefreshing` guard, the FIFO
`requestQueue` of pending requests, and the token store. -/
structure CoordState where
  isRefreshing : Bool
  requestQueue : List RequestConfig
  store : LocalStorage
  deriving Repr, DecidableEq

/-- Synchronous outcome of the response interceptor for one failed
response: start a refresh cycle, join the queue of the in-flight one,
or reject immediately (with or without the session-teardown side effects
of lines 122–125). -/
inductive InterceptOutcome where
  | startRefresh (req : RequestConfig)
  | queued (req : RequestConfig)
  | rejectAuthFailure (e : ApiError)
  | rejectNormalized (e : ApiError)
  deriving Repr, DecidableEq

/-- Whether `error.response?.status === 401`. -/
def is401 (e : AxiosErr) : Bool :=
  match e.response with
  | some r => r.status = 401
  | none => false

/-- Setting `originalRequest._retry = true` (line 70); the interceptor only
does this when `config` is present, so the `none` fallback is arbitrary. -/
def markRetry (e : AxiosErr) : RequestConfig :=
  match e.config with
  | some req => { req with retry := true }
  | none => { id := 0, retry := true, authHeader := none }

/-- Whether this failed response takes the refresh branch of line 68:
a 401 whose request exists and has not been retried yet. -/
def fresh401 (e : AxiosErr) : Bool :=
  is401 e &&
  (match e.config with
   | some req => !req.retry
   | none => false)

/-- Synchronous prefix of the response-interceptor error handler
(lines 65–127): decide, from the current coordinator state, whether this
failure starts the refresh cycle, is queued behind the in-flight one, or is
rejected at once; a non-retry-eligible 401 additionally clears the token
store and signals authentication failure (lines 122–125). -/
def interceptError (s : CoordState) (e : AxiosErr) : CoordState × InterceptOutcome :=
  match e.config with
  | some req =>
    if is401 e && !req.retry then
      let req2 : RequestConfig := { req with retry := true }
      if !s.isRefreshing then
        ({ s with isRefreshing := true }, .startRefresh req2)
      else
        ({ s with requestQueue := s.requestQueue ++ [req2] }, .queued req2)
    else if is401 e then
      ({ s with store := clearTokens s.store }, .rejectAuthFailure (handleError e))
    else
      (s, .rejectNormalized (handleError e))
  | none =>
    if is401 e then
      ({ s with store := clearTokens s.store }, .rejectAuthFailure (handleError e))
    else
      (s, .rejectNormalized (handleError e))

/-- The value thrown inside the refresh `try` block: the local
local `Error` of line 79 (no refresh token available), or the rejection of the
refresh network call itself. -/
inductive RefreshError where
  | noRefreshToken
  | network (e : AxiosErr)
  deriving Repr, DecidableEq

/-- Body of the refresh attempt (lines 77–84): read the stored refresh
token; fail immediately (no network call) when it is absent/falsy, else
issue exactly one refresh network call.  Returns the result together with
the number of refresh network calls performed. -/
def runRefreshBody (st : LocalStorage)
    (net : String → Except AxiosErr AuthenticationResponse) :
    Except RefreshError AuthenticationResponse × Nat :=
  let refreshToken := getItem st "refreshToken"
  if !truthy refreshToken then
    (.error .noRefreshToken, 0)
  else
    match net (refreshToken.getD "") with
    | .ok r => (.ok r, 1)
    | .error e => (.error (.network e), 1)

/-- Overwrite the `Authorization` header with the new bearer token
(lines 95 and 141). -/
def setAuthHeader (req : RequestConfig) (token : String) : RequestConfig :=
  { req with authHeader := some ("Bearer " ++ token) }

/-- What `processQueue` does to one queued entry: replay it through
`this.api(config).then(resolve).catch(reject)` — an independent settlement
per request — or reject it with the refresh error. -/
inductive ReplayAction where
  | replay (req : RequestConfig)
  | rejectQueued (req : RequestConfig) (e : RefreshError)
  deriving Repr, DecidableEq

/-- Embedding of `ApiService.processQueue` (lines 134–151): walk the queue
in FIFO order; on error reject each entry with it, otherwise replay it,
updating its `Authorization` header to the new token only when the token is
truthy (the `config.headers && token` guard of line 140: a null or empty
token leaves the old header in place). -/
def processQueue (queue : List RequestConfig) (err : Option RefreshError)
    (token : Option String) : List ReplayAction :=
  queue.map (fun q =>
    match err with
    | some e => .rejectQueued q e
    | none =>
      if truthy token then .replay (setAuthHeader q (token.getD ""))
      else .replay q)

/-- Observable events of the tail of a refresh cycle, in program order. -/
inductive CycleEvent where
  | tokensStored (access refresh : String)
  | queueDrained (acts : List ReplayAction)
  | retryOriginal (req : RequestConfig)
  | storeCleared
  | authFailureSignaled (message redirectTo : String) (delayMs : Nat)
  | triggerRejected (e : RefreshError)
  deriving Repr, DecidableEq

/-- Completion of the refresh cycle, lines 86–108.  On success: store the
two new tokens, drain the queue with the new access token, retry the
triggering request with the new token (lines 94–97).  On failure: drain the
queue with the error, clear the token store, signal authentication failure
(the custom event of lines 158–163 and the delayed redirect of
lines 166–168), and reject the triggering request with the refresh error.
The `finally` block resets `isRefreshing`. -/
def completeRefresh (s : CoordState) (trigger : RequestConfig)
    (result : Except RefreshError AuthenticationResponse) :
    CoordState × List CycleEvent :=
  match result with
  | .ok r =>
    ({ isRefreshing := false, requestQueue := [], store := refresh_store s.store r },
     [.tokensStored r.accessToken r.refreshToken,
      .queueDrained (processQueue s.requestQueue none (some r.accessToken)),
      .retryOriginal (setAuthHeader trigger r.accessToken)])
  | .error e =>
    ({ isRefreshing := false, requestQueue := [], store := clearTokens s.store },
     [.queueDrained (processQueue s.requestQueue (some e) none),
      .storeCleared,
      .authFailureSignaled "Your session has expired. Please log in again." "/login" 2000,
      .triggerRejected e])

/-- Deliver a list of further failed responses to the interceptor, in
arrival order, threading the coordinator state and collecting each
synchronous outcome of each request. -/
def enqueueArrivals (s : CoordState) :
    List AxiosErr → CoordState × List InterceptOutcome
  | [] => (s, [])
  | e :: rest =>
    let so := interceptError s e
    let rec2 := enqueueArrivals so.1 rest
    (rec2.1, so.2 :: rec2.2)

/-- Result of one whole refresh cycle. -/
structure CycleResult where
  state : CoordState
  refreshNetCalls : Nat
  arrivalOutcomes : List InterceptOutcome
  events : List CycleEvent
  deriving Repr, DecidableEq

/-- One whole refresh cycle of the single-threaded event loop: the
triggering failed response is intercepted, the refresh body starts, the
`arrivals` (further failed responses delivered while the refresh promise is
pending) are intercepted in arrival order, and the refresh completion runs.
When the trigger does not start a refresh nothing else happens. -/
def runRefreshCycle (s0 : CoordState) (trigger : AxiosErr)
    (arrivals : List AxiosErr)
    (net : String → Except AxiosErr AuthenticationResponse) : CycleResult :=
  let step1 := interceptError s0 trigger
  match step1.2 with
  | .startRefresh req =>
    let body := runRefreshBody step1.1.store net
    let arr := enqueueArrivals step1.1 arrivals
    let fin := completeRefresh arr.1 req body.1
    { state := fin.1, refreshNetCalls := body.2,
      arrivalOutcomes := arr.2, events := fin.2 }
  | _ =>
    { state := step1.1, refreshNetCalls := 0, arrivalOutcomes := [], events := [] }

/-- Queue-drain events of a trace, in order. -/
def drainedQueues (evs : List CycleEvent) : List (List ReplayAction) :=
  evs.filterMap (fun ev =>
    match ev with
    | .queueDrained acts => some acts
    | _ => none)

/-- Retry events of a trace, in order. -/
def retriesOf (evs : List CycleEvent) : List RequestConfig :=
  evs.filterMap (fun ev =>
    match ev with
    | .retryOriginal req => some req
    | _ => none)

/-- The request a replay action settles. -/
def actConfig : ReplayAction → RequestConfig
  | .replay req => req
  | .rejectQueued req _ => req

/-! ## Logout (lines 216–228) -/

/-- Observable result of `ApiService.logout`: the refresh tokens sent to
`POST /auth/logout`, the resulting store, and whether the returned promise
resolved. -/
structure LogoutRun where
  networkCalls : List String
  store : LocalStorage
  resolved : Bool
  deriving Repr, DecidableEq

/-- Embedding of `ApiService.logout` (lines 216–228): when a (truthy)
refresh token is stored, post it to the server inside `try/catch` — both
branches continue identically, the `catch` only logs — then always
`clearTokens()`; the promise always resolves. -/
def logout_run (st : LocalStorage)
    (server : String → Except ApiError Unit) : LogoutRun :=
  let refreshToken := getItem st "refreshToken"
  if truthy refreshToken then
    match server (refreshToken.getD "") with
    | .ok _ =>
      { networkCalls := [refreshToken.getD ""], store := clearTokens st, resolved := true }
    | .error _ =>
      { networkCalls := [refreshToken.getD ""], store := clearTokens st, resolved := true }
  else
    { networkCalls := [], store := clearTokens st, resolved := true }

/-! ## Storage lemmas -/

lemma getItem_nil (k : String) : getItem [] k = none := rfl

lemma getItem_cons (kv : String × String) (rest : LocalStorage) (k : String) :
    getItem (kv :: rest) k = if kv.1 = k then some kv.2 else getItem rest k := by
  by_cases h : kv.1 = k <;> simp [getItem, List.find?_cons, h]

lemma getItem_setItem (st : LocalStorage) (k v k' : String) :
    getItem (setItem st k v) k' = if k' = k then some v else getItem st k' := by
  induction st with
  | nil =>
    by_cases h : k' = k <;> simp [setItem, getItem_cons, getItem_nil, h]
    · intro hc; exact absurd hc.symm h
  | cons kv rest ih =>
    by_cases hk : kv.1 = k
    · by_cases h : k' = k
      · simp [setItem, hk, getItem_cons, h]
      · have h2 : ¬(k = k') := fun hc => h hc.symm
        simp [setItem, hk, getItem_cons, h, h2]
    · simp only [setItem, if_neg hk, getItem_cons]
      by_cases h : kv.1 = k'
      · have : ¬(k' = k) := fun hc => hk (by rw [h, hc])
        simp [h, this]
      · simp [h, ih]

lemma getItem_removeItem (st : LocalStorage) (k k' : String) :
    getItem (removeItem st k) k' = if k' = k then none else getItem st k' := by
  induction st with
  | nil => simp [removeItem, getItem_nil]
  | cons kv rest ih =>
    simp only [removeItem, List.filter_cons] at ih ⊢
    by_cases hk : kv.1 = k
    · simp only [hk, decide_True, Bool.not_true, Bool.false_eq_true, if_false]
      by_cases h : k' = k
      · simpa [h] using ih
      · have hkv : ¬(kv.1 = k') := fun hc => h (by rw [← hc, hk])
        simp [ih, h, getItem_cons, hkv]
    · simp only [hk, decide_False, Bool.not_false, if_true]
      rw [getItem_cons, getItem_cons]
      by_cases hkv : kv.1 = k'
      · have : ¬(k' = k) := fun hc => hk (by rw [hkv, hc])
        simp [hkv, this]
      · simp [hkv, ih]

lemma clearTokens_unfold (st : LocalStorage) :
    clearTokens st =
      removeItem (removeItem (removeItem
        (removeItem st "accessToken") "refreshToken") "tokenType") "expiresIn" := rfl

lemma getItem_clearTokens (st : LocalStorage) (k : String) :
    getItem (clearTokens st) k =
      if k = "accessToken" ∨ k = "refreshToken" ∨ k = "tokenType" ∨ k = "expiresIn"
      then none else getItem st k := by
  rw [clearTokens_unfold]
  simp only [getItem_removeItem]
  by_cases h1 : k = "accessToken" <;> by_cases h2 : k = "refreshToken" <;>
    by_cases h3 : k = "tokenType" <;> by_cases h4 : k = "expiresIn" <;>
    simp [h1, h2, h3, h4]

lemma login_store_unfold (st : LocalStorage) (r : AuthenticationResponse) :
    login_store st r =
      setItem (setItem (setItem (setItem st "accessToken" r.accessToken)
        "refreshToken" r.refreshToken) "tokenType" r.tokenType)
        "expiresIn" (toString r.expiresIn) := rfl

lemma getItem_login_store (st : LocalStorage) (r : AuthenticationResponse) (k : String) :
    getItem (login_store st r) k =
      if k = "expiresIn" then some (toString r.expiresIn)
      else if k = "tokenType" then some r.tokenType
      else if k = "refreshToken" then some r.refreshToken
      else if k = "accessToken" then some r.accessToken
      else getItem st k := by
  rw [login_store_unfold]
  simp only [getItem_setItem]

/-- Reading a key `isAuthenticated` consults is all that matters to it. -/
lemma isAuthenticated_congr (st st' : LocalStorage) (now : Int)
    (hA : getItem st' "accessToken" = getItem st "accessToken")
    (hE : getItem st' "expiresIn" = getItem st "expiresIn") :
    isAuthenticated st' now = isAuthenticated st now := by
  simp only [isAuthenticated, hA, hE]

/-! ## Claim theorems: token store -/

/-- C5 (amended): the persisted TokenPair is fully overwritten — all four
fields — on login and (modelled from the spec) on registration, and cleared
by `clearTokens`; on refresh, however, only `accessToken` and `refreshToken`
are overwritten, while `tokenType` and the stored expiry value are left
unchanged. -/
theorem spec_C5_token_overwrite_amended :
    (∀ st r, getItem (login_store st r) "accessToken" = some r.accessToken
      ∧ getItem (login_store st r) "refreshToken" = some r.refreshToken
      ∧ getItem (login_store st r) "tokenType" = some r.tokenType
      ∧ getItem (login_store st r) "expiresIn" = some (toString r.expiresIn))
    ∧ (∀ st r, register_store st r = login_store st r)
    ∧ (∀ st r, getItem (refresh_store st r) "accessToken" = some r.accessToken
      ∧ getItem (refresh_store st r) "refreshToken" = some r.refreshToken
      ∧ getItem (refresh_store st r) "tokenType" = getItem st "tokenType"
      ∧ getItem (refresh_store st r) "expiresIn" = getItem st "expiresIn")
    ∧ (∀ st, getItem (clearTokens st) "accessToken" = none
      ∧ getItem (clearTokens st) "refreshToken" = none
      ∧ getItem (clearTokens st) "tokenType" = none
      ∧ getItem (clearTokens st) "expiresIn" = none) := by
  refine ⟨fun st r => ?_, fun st r => rfl, fun st r => ?_, fun st => ?_⟩
  · refine ⟨?_, ?_, ?_, ?_⟩ <;> simp [getItem_login_store]
  · refine ⟨?_, ?_, ?_, ?_⟩ <;> simp [refresh_store, getItem_setItem]
  · refine ⟨?_, ?_, ?_, ?_⟩ <;> simp [getItem_clearTokens]

/-- C5 counterexample: a refresh whose response carries
`expiresIn = 222` and `tokenType = "B2"` leaves the previously stored
`expiresIn = "111"` and `tokenType = "Bearer"` untouched, so the refresh
does not overwrite all four TokenPair fields. -/
theorem spec_C5_counterexample :
    toString (222 : Int) = "222"
    ∧ getItem (refresh_store (login_store [] ⟨"a0", "r0", "Bearer", 111⟩)
        ⟨"a1", "r1", "B2", 222⟩) "expiresIn" = some "111"
    ∧ getItem (refresh_store (login_store [] ⟨"a0", "r0", "Bearer", 111⟩)
        ⟨"a1", "r1", "B2", 222⟩) "tokenType" = some "Bearer" := by
  refine ⟨rfl, rfl, rfl⟩

/-- C6 (amended): `isAuthenticated` returns true iff `accessToken` and
`expiresIn` are present and non-empty in browser storage and the current
time is strictly before the integer parsed from `expiresIn`; it never
consults `refreshToken` or `tokenType`, so it does not test for a full
non-expired TokenPair. -/
theorem spec_C6_isAuthenticated_amended :
    (∀ st now, isAuthenticated st now =
      (truthy (getItem st "accessToken") && truthy (getItem st "expiresIn") &&
        match (getItem st "expiresIn").bind parseIntJS with
        | some t => decide (now < t)
        | none => false))
    ∧ (∀ st now v, isAuthenticated (setItem st "refreshToken" v) now = isAuthenticated st now)
    ∧ (∀ st now v, isAuthenticated (setItem st "tokenType" v) now = isAuthenticated st now)
    ∧ (∀ st now, isAuthenticated (removeItem st "refreshToken") now = isAuthenticated st now)
    ∧ (∀ st now, isAuthenticated (removeItem st "tokenType") now = isAuthenticated st now) := by
  refine ⟨fun st now => ?_, fun st now v => ?_, fun st now v => ?_,
    fun st now => ?_, fun st now => ?_⟩
  · cases hA : getItem st "accessToken" with
    | none => simp [isAuthenticated, truthy, hA]
    | some a =>
      cases hE : getItem st "expiresIn" with
      | none => simp [isAuthenticated, truthy, hA, hE]
      | some x =>
        by_cases ha : a = "" <;> by_cases hx : x = "" <;>
          simp [isAuthenticated, truthy, hA, hE, ha, hx]
  all_goals
    apply isAuthenticated_congr <;>
      simp [getItem_setItem, getItem_removeItem]

/-- C6 counterexample: a store holding only `accessToken` and a future
`expiresIn` — no `refreshToken`, no `tokenType`, hence no complete
TokenPair — still makes `isAuthenticated` return true. -/
theorem spec_C6_counterexample :
    isAuthenticated [("accessToken", "a"), ("expiresIn", "100")] 0 = true
    ∧ nonExpiredTokenPairExists [("accessToken", "a"), ("expiresIn", "100")] 0 = false := by
  refine ⟨rfl, rfl⟩

/-- C8: the four key/value pairs `login` stores are keyed exactly by the
four keys `clearTokens` removes (same keys, same order), and clearing after
a login reads back exactly like clearing the pre-login store: the login
writes are completely undone. -/
theorem spec_C8_roundtrip :
    (∀ r, (loginWrites r).map Prod.fst = clearTokensKeys)
    ∧ (∀ st r k, getItem (clearTokens (login_store st r)) k = getItem (clearTokens st) k) := by
  refine ⟨fun r => rfl, fun st r k => ?_⟩
  rw [getItem_clearTokens, getItem_clearTokens, getItem_login_store]
  by_cases h1 : k = "accessToken" <;> by_cases h2 : k = "refreshToken" <;>
    by_cases h3 : k = "tokenType" <;> by_cases h4 : k = "expiresIn" <;>
    simp [h1, h2, h3, h4]

/-! ## Claim theorems: logout -/

/-- C9: `logout` with no stored refresh token issues no network call,
resolves, and leaves all four token keys cleared. -/
theorem spec_C9_logout_no_token (st : LocalStorage)
    (server : String → Except ApiError Unit)
    (h : getItem st "refreshToken" = none) :
    (logout_run st server).networkCalls = []
    ∧ (logout_run st server).resolved = true
    ∧ getItem (logout_run st server).store "accessToken" = none
    ∧ getItem (logout_run st server).store "refreshToken" = none
    ∧ getItem (logout_run st server).store "tokenType" = none
    ∧ getItem (logout_run st server).store "expiresIn" = none := by
  refine ⟨?_, ?_, ?_, ?_, ?_, ?_⟩ <;>
    simp [logout_run, h, truthy, getItem_clearTokens]

/-- C9 witness. -/
theorem spec_C9_witness :
    getItem ([("accessToken", "a")] : LocalStorage) "refreshToken" = none
    ∧ (logout_run [("accessToken", "a")] (fun _ => Except.ok ())).networkCalls = [] := by
  have h : getItem ([("accessToken", "a")] : LocalStorage) "refreshToken" = none := rfl
  exact ⟨h, (spec_C9_logout_no_token [("accessToken", "a")] (fun _ => Except.ok ()) h).1⟩

/-- C10: `logout` with a stored refresh token posts it to the server once,
and — whether that server call succeeds or fails — swallows any error,
clears all four token keys, and resolves; its entire observable result is
independent of the server outcome. -/
theorem spec_C10_logout_server_failure (st : LocalStorage) (t : String)
    (server : String → Except ApiError Unit)
    (h : getItem st "refreshToken" = some t) (ht : t ≠ "") :
    (logout_run st server).resolved = true
    ∧ (logout_run st server).networkCalls = [t]
    ∧ (logout_run st server).store = clearTokens st
    ∧ getItem (logout_run st server).store "accessToken" = none
    ∧ getItem (logout_run st server).store "refreshToken" = none
    ∧ getItem (logout_run st server).store "tokenType" = none
    ∧ getItem (logout_run st server).store "expiresIn" = none
    ∧ (∀ err : ApiError,
        logout_run st (fun _ => Except.error err) = logout_run st (fun _ => Except.ok ())) := by
  have hcalls : ∀ sv : String → Except ApiError Unit,
      logout_run st sv =
        { networkCalls := [t], store := clearTokens st, resolved := true } := by
    intro sv
    cases hs : sv t <;> simp [logout_run, h, truthy, ht, hs]
  refine ⟨?_, ?_, ?_, ?_, ?_, ?_, ?_, fun err => ?_⟩ <;>
    simp [hcalls, getItem_clearTokens]

/-- C10 witness. -/
theorem spec_C10_witness :
    getItem ([("refreshToken", "rt")] : LocalStorage) "refreshToken" = some "rt"
    ∧ (logout_run [("refreshToken", "rt")]
        (fun _ => Except.error ⟨500, "boom", none⟩)).resolved = true := by
  have h : getItem ([("refreshToken", "rt")] : LocalStorage) "refreshToken" = some "rt" := rfl
  exact ⟨h, (spec_C10_logout_server_failure [("refreshToken", "rt")] "rt"
    (fun _ => Except.error ⟨500, "boom", none⟩) h (by simp)).1⟩

/-! ## Coordinator lemmas -/

/-- A retry-eligible 401 from the idle state starts the refresh cycle. -/
lemma interceptError_fresh_idle (s : CoordState) (e : AxiosErr)
    (hidle : s.isRefreshing = false) (hf : fresh401 e = true) :
    interceptError s e = ({ s with isRefreshing := true },
      .startRefresh (markRetry e)) := by
  rcases e with ⟨resp, msg, cfg⟩
  cases cfg with
  | none => simp [fresh401] at hf
  | some req =>
    rw [fresh401, Bool.and_eq_true] at hf
    simp only at hf
    simp [interceptError, markRetry, hf.1, hf.2, hidle]

/-- A retry-eligible 401 during an in-flight refresh is appended to the
request queue; nothing else changes. -/
lemma interceptError_fresh_refreshing (s : CoordState) (e : AxiosErr)
    (hr : s.isRefreshing = true) (hf : fresh401 e = true) :
    interceptError s e = ({ s with requestQueue := s.requestQueue ++ [markRetry e] },
      .queued (markRetry e)) := by
  rcases e with ⟨resp, msg, cfg⟩
  cases cfg with
  | none => simp [fresh401] at hf
  | some req =>
    rw [fresh401, Bool.and_eq_true] at hf
    simp only at hf
    simp [interceptError, markRetry, hf.1, hf.2, hr]

/-- Retry-eligible 401s arriving while a refresh is in flight are all
queued, in arrival order, and the state changes only by this growth of the
queue. -/
lemma enqueueArrivals_fresh (arrivals : List AxiosErr) (s : CoordState)
    (hr : s.isRefreshing = true)
    (hall : ∀ e ∈ arrivals, fresh401 e = true) :
    enqueueArrivals s arrivals =
      ({ s with requestQueue := s.requestQueue ++ arrivals.map markRetry },
       arrivals.map (fun e => .queued (markRetry e))) := by
  induction arrivals generalizing s with
  | nil => simp [enqueueArrivals]
  | cons e rest ih =>
    have he := hall e (by simp)
    rw [enqueueArrivals, interceptError_fresh_refreshing s e hr he]
    rw [ih { s with requestQueue := s.requestQueue ++ [markRetry e] } hr
      (fun e2 h2 => hall e2 (by simp [h2]))]
    simp

/-- The refresh body makes exactly one network call when a truthy refresh
token is stored, and its result is the network result. -/
lemma runRefreshBody_truthy (st : LocalStorage)
    (net : String → Except AxiosErr AuthenticationResponse) (t : String)
    (h : getItem st "refreshToken" = some t) (ht : t ≠ "") :
    runRefreshBody st net =
      (match net t with
       | .ok r => (.ok r, 1)
       | .error e => (.error (.network e), 1)) := by
  simp [runRefreshBody, h, truthy, ht]

/-- The refresh body fails immediately without a network call when no
truthy refresh token is stored. -/
lemma runRefreshBody_noToken (st : LocalStorage)
    (net : String → Except AxiosErr AuthenticationResponse)
    (h : truthy (getItem st "refreshToken") = false) :
    runRefreshBody st net = (.error .noRefreshToken, 0) := by
  simp [runRefreshBody, h]

/-- `processQueue` settles exactly the queued requests, one action per
request, in queue order. -/
lemma processQueue_ids (queue : List RequestConfig) (err : Option RefreshError)
    (token : Option String) :
    (processQueue queue err token).map (fun a => (actConfig a).id) =
      queue.map (·.id) := by
  induction queue with
  | nil => rfl
  | cons q rest ih =>
    cases err with
    | some e => simp [processQueue, actConfig]
    | none =>
      cases htr : truthy token <;>
        simp [processQueue, actConfig, setAuthHeader, htr]

/-! ## Claim theorems: interceptor -/

/-- C2: a request already marked `_retry` that receives another 401 is not
queued and does not start another refresh cycle: the interceptor only clears
the token store, signals authentication failure, and rejects with the
normalized error; `isRefreshing` and the request queue are untouched. -/
theorem spec_C2_retry_at_most_once (s : CoordState) (e : AxiosErr)
    (req : RequestConfig) (hcfg : e.config = some req)
    (hretry : req.retry = true) (h401 : is401 e = true) :
    interceptError s e =
      ({ s with store := clearTokens s.store },
       .rejectAuthFailure (handleError e)) := by
  rcases e with ⟨resp, msg, cfg⟩
  cases hcfg
  simp only [is401] at h401
  simp [interceptError, is401, hretry, h401]

/-- C2 witness. -/
theorem spec_C2_witness :
    (⟨some ⟨401, none⟩, "Unauthorized", some ⟨7, true, none⟩⟩ : AxiosErr).config =
        some ⟨7, true, none⟩
    ∧ (⟨7, true, none⟩ : RequestConfig).retry = true
    ∧ is401 ⟨some ⟨401, none⟩, "Unauthorized", some ⟨7, true, none⟩⟩ = true
    ∧ interceptError ⟨false, [], []⟩
        ⟨some ⟨401, none⟩, "Unauthorized", some ⟨7, true, none⟩⟩ =
      ({ (⟨false, [], []⟩ : CoordState) with store := clearTokens [] },
       InterceptOutcome.rejectAuthFailure (handleError
         ⟨some ⟨401, none⟩, "Unauthorized", some ⟨7, true, none⟩⟩)) :=
  ⟨rfl, rfl, rfl,
    spec_C2_retry_at_most_once ⟨false, [], []⟩
      ⟨some ⟨401, none⟩, "Unauthorized", some ⟨7, true, none⟩⟩
      ⟨7, true, none⟩ rfl rfl rfl⟩

/-- C7: every rejection the interceptor itself produces is the normalized
`handleError` value (an `ApiError` with `status`, `message` and optional
field errors), never the raw transport error; when no structured backend
payload exists the normalization falls back to the response status (or 500
without a response) and the transport message; when a structured payload
exists it is returned as-is; and the one exception is the refresh-failure
path, whose rejections — the queued requests' and the triggering
request's — propagate the refresh error itself. -/
theorem spec_C7_error_normalization :
    (∀ (s : CoordState) (e : AxiosErr),
      match (interceptError s e).2 with
      | .rejectNormalized x => x = handleError e
      | .rejectAuthFailure x => x = handleError e
      | _ => True)
    ∧ (∀ (e : AxiosErr) (r : ErrResponse), e.response = some r → r.data = none →
        r.status ≠ 0 → (handleError e).status = r.status)
    ∧ (∀ e : AxiosErr, e.response = none → (handleError e).status = 500)
    ∧ (∀ e : AxiosErr, e.response.bind (fun r => r.data) = none → e.message ≠ "" →
        (handleError e).message = e.message)
    ∧ (∀ (e : AxiosErr) (d : ApiError), e.response.bind (fun r => r.data) = some d →
        handleError e = d)
    ∧ (∀ (s : CoordState) (trigger : RequestConfig) (err : RefreshError),
        drainedQueues (completeRefresh s trigger (Except.error err)).2 =
          [s.requestQueue.map (fun q => ReplayAction.rejectQueued q err)]
        ∧ CycleEvent.triggerRejected err ∈ (completeRefresh s trigger (Except.error err)).2) := by
  refine ⟨fun s e => ?_, fun e r hr hd hs => ?_, fun e hr => ?_,
    fun e hd hm => ?_, fun e d hd => ?_, fun s trigger err => ⟨?_, ?_⟩⟩
  · rcases e with ⟨resp, msg, cfg⟩
    cases cfg with
    | none =>
      by_cases h : is401 ⟨resp, msg, none⟩ <;> simp [interceptError, h]
    | some req =>
      by_cases h1 : is401 ⟨resp, msg, some req⟩ <;>
        cases hr : req.retry <;> cases hb : s.isRefreshing <;>
        simp [interceptError, h1, hr, hb]
  · simp [handleError, hr, hd, hs]
  · simp [handleError, hr]
  · simp [handleError, hd, hm]
  · simp [handleError, hd]
  · simp [completeRefresh, drainedQueues, processQueue]
  · simp [completeRefresh]

/-- C7 witness. -/
theorem spec_C7_witness :
    (⟨none, "Network Error", none⟩ : AxiosErr).response = none
    ∧ (handleError ⟨none, "Network Error", none⟩).status = 500 :=
  ⟨rfl, spec_C7_error_normalization.2.2.1 ⟨none, "Network Error", none⟩ rfl⟩

/-- Full characterization of a successful refresh cycle started from an
idle coordinator. -/
lemma runRefreshCycle_success (s0 : CoordState) (trigger : AxiosErr)
    (arrivals : List AxiosErr)
    (net : String → Except AxiosErr AuthenticationResponse)
    (t : String) (resp : AuthenticationResponse)
    (hidle : s0.isRefreshing = false)
    (htrig : fresh401 trigger = true)
    (hall : ∀ e ∈ arrivals, fresh401 e = true)
    (ht : getItem s0.store "refreshToken" = some t) (hne : t ≠ "")
    (hnet : net t = Except.ok resp) :
    runRefreshCycle s0 trigger arrivals net =
      { state :=
          { isRefreshing := false, requestQueue := [],
            store := refresh_store s0.store resp },
        refreshNetCalls := 1,
        arrivalOutcomes := arrivals.map (fun e => .queued (markRetry e)),
        events := [
          .tokensStored resp.accessToken resp.refreshToken,
          .queueDrained (processQueue (s0.requestQueue ++ arrivals.map markRetry)
            none (some resp.accessToken)),
          .retryOriginal (setAuthHeader (markRetry trigger) resp.accessToken)] } := by
  have hstep := interceptError_fresh_idle s0 trigger hidle htrig
  have harr := enqueueArrivals_fresh arrivals { s0 with isRefreshing := true } rfl hall
  have hbody := runRefreshBody_truthy s0.store net t ht hne
  rw [hnet] at hbody
  simp only [runRefreshCycle, hstep, harr, hbody, completeRefresh]

/-- Full characterization of a failed refresh cycle started from an idle
coordinator; covers both the missing-refresh-token failure and a failed
refresh network call, via the result of `runRefreshBody`. -/
lemma runRefreshCycle_failure (s0 : CoordState) (trigger : AxiosErr)
    (arrivals : List AxiosErr)
    (net : String → Except AxiosErr AuthenticationResponse)
    (err : RefreshError) (n : Nat)
    (hidle : s0.isRefreshing = false)
    (htrig : fresh401 trigger = true)
    (hall : ∀ e ∈ arrivals, fresh401 e = true)
    (hbody : runRefreshBody s0.store net = (Except.error err, n)) :
    runRefreshCycle s0 trigger arrivals net =
      { state :=
          { isRefreshing := false, requestQueue := [],
            store := clearTokens s0.store },
        refreshNetCalls := n,
        arrivalOutcomes := arrivals.map (fun e => .queued (markRetry e)),
        events := [
          .queueDrained (processQueue (s0.requestQueue ++ arrivals.map markRetry)
            (some err) none),
          .storeCleared,
          .authFailureSignaled "Your session has expired. Please log in again."
            "/login" 2000,
          .triggerRejected err] } := by
  have hstep := interceptError_fresh_idle s0 trigger hidle htrig
  have harr := enqueueArrivals_fresh arrivals { s0 with isRefreshing := true } rfl hall
  simp only [runRefreshCycle, hstep, harr, hbody, completeRefresh]

/-- C1: during one refresh cycle with N retry-eligible 401s arriving while
the refresh is in flight, exactly one refresh network call occurs; every
arrival is merely queued while the refresh is pending — none is settled
before the refresh finishes — and the queue is drained in a single pass
strictly after the refresh resolves (the sole `queueDrained` event of the
cycle), in arrival order, one independent settlement action per request;
afterwards the queue is empty and `isRefreshing` is reset. -/
theorem spec_C1_refresh_queue_ordering (s0 : CoordState) (trigger : AxiosErr)
    (arrivals : List AxiosErr)
    (net : String → Except AxiosErr AuthenticationResponse) (t : String)
    (hidle : s0.isRefreshing = false) (hq : s0.requestQueue = [])
    (htrig : fresh401 trigger = true)
    (hall : ∀ e ∈ arrivals, fresh401 e = true)
    (ht : getItem s0.store "refreshToken" = some t) (hne : t ≠ "") :
    (runRefreshCycle s0 trigger arrivals net).refreshNetCalls = 1
    ∧ (runRefreshCycle s0 trigger arrivals net).arrivalOutcomes =
        arrivals.map (fun e => InterceptOutcome.queued (markRetry e))
    ∧ (∃ acts, drainedQueues (runRefreshCycle s0 trigger arrivals net).events = [acts]
        ∧ acts.map (fun a => (actConfig a).id) =
            arrivals.map (fun e => (markRetry e).id))
    ∧ (runRefreshCycle s0 trigger arrivals net).state.isRefreshing = false
    ∧ (runRefreshCycle s0 trigger arrivals net).state.requestQueue = [] := by
  cases hnet : net t with
  | ok resp =>
    rw [runRefreshCycle_success s0 trigger arrivals net t resp hidle htrig hall ht hne hnet]
    refine ⟨rfl, rfl, ⟨processQueue (s0.requestQueue ++ arrivals.map markRetry)
      none (some resp.accessToken), by simp [drainedQueues], ?_⟩, rfl, rfl⟩
    rw [processQueue_ids, hq]
    simp
  | error aerr =>
    have hbody := runRefreshBody_truthy s0.store net t ht hne
    rw [hnet] at hbody
    rw [runRefreshCycle_failure s0 trigger arrivals net (.network aerr) 1
      hidle htrig hall hbody]
    refine ⟨rfl, rfl, ⟨processQueue (s0.requestQueue ++ arrivals.map markRetry)
      (some (.network aerr)) none, by simp [drainedQueues], ?_⟩, rfl, rfl⟩
    rw [processQueue_ids, hq]
    simp

/-- C1 witness. -/
theorem spec_C1_witness :
    (⟨false, [], [("refreshToken", "rt0")]⟩ : CoordState).isRefreshing = false
    ∧ fresh401 ⟨some ⟨401, none⟩, "Unauthorized", some ⟨1, false, none⟩⟩ = true
    ∧ (∀ e ∈ ([⟨some ⟨401, none⟩, "Unauthorized", some ⟨2, false, none⟩⟩,
          ⟨some ⟨401, none⟩, "Unauthorized", some ⟨3, false, none⟩⟩] : List AxiosErr),
        fresh401 e = true)
    ∧ (runRefreshCycle ⟨false, [], [("refreshToken", "rt0")]⟩
        ⟨some ⟨401, none⟩, "Unauthorized", some ⟨1, false, none⟩⟩
        [⟨some ⟨401, none⟩, "Unauthorized", some ⟨2, false, none⟩⟩,
         ⟨some ⟨401, none⟩, "Unauthorized", some ⟨3, false, none⟩⟩]
        (fun _ => Except.ok ⟨"na", "nr", "Bearer", 99⟩)).refreshNetCalls = 1 := by
  refine ⟨rfl, by decide, by decide, ?_⟩
  exact (spec_C1_refresh_queue_ordering ⟨false, [], [("refreshToken", "rt0")]⟩
    ⟨some ⟨401, none⟩, "Unauthorized", some ⟨1, false, none⟩⟩
    [⟨some ⟨401, none⟩, "Unauthorized", some ⟨2, false, none⟩⟩,
     ⟨some ⟨401, none⟩, "Unauthorized", some ⟨3, false, none⟩⟩]
    (fun _ => Except.ok ⟨"na", "nr", "Bearer", 99⟩) "rt0"
    rfl rfl (by decide) (by decide) rfl (by decide)).1

/-- C3: when a 401 on a request whose access token is present but expired
triggers a refresh that succeeds — delivering a non-empty (truthy) new
access token, as the `config.headers && token` guard of line 140
presumes — every queued request is replayed with the new access token as
one independent settlement each, the triggering request is retried exactly
once carrying the new bearer token, that retry succeeds against any server
that accepts the new token, and the new access and refresh tokens are
stored. -/
theorem spec_C3_refresh_success_replay (s0 : CoordState) (trigger : AxiosErr)
    (arrivals : List AxiosErr)
    (net : String → Except AxiosErr AuthenticationResponse)
    (server : RequestConfig → Except AxiosErr Unit)
    (t : String) (resp : AuthenticationResponse) (now : Int)
    (hidle : s0.isRefreshing = false) (hq : s0.requestQueue = [])
    (htrig : fresh401 trigger = true)
    (hall : ∀ e ∈ arrivals, fresh401 e = true)
    (_haccess : truthy (getItem s0.store "accessToken") = true)
    (_hexpired : isAuthenticated s0.store now = false)
    (ht : getItem s0.store "refreshToken" = some t) (hne : t ≠ "")
    (hnet : net t = Except.ok resp) (hnewtok : resp.accessToken ≠ "")
    (hserver : ∀ req : RequestConfig,
      req.authHeader = some ("Bearer " ++ resp.accessToken) →
      server req = Except.ok ()) :
    drainedQueues (runRefreshCycle s0 trigger arrivals net).events =
      [(arrivals.map markRetry).map
        (fun q => ReplayAction.replay (setAuthHeader q resp.accessToken))]
    ∧ retriesOf (runRefreshCycle s0 trigger arrivals net).events =
        [setAuthHeader (markRetry trigger) resp.accessToken]
    ∧ server (setAuthHeader (markRetry trigger) resp.accessToken) = Except.ok ()
    ∧ getItem (runRefreshCycle s0 trigger arrivals net).state.store "accessToken" =
        some resp.accessToken
    ∧ getItem (runRefreshCycle s0 trigger arrivals net).state.store "refreshToken" =
        some resp.refreshToken := by
  rw [runRefreshCycle_success s0 trigger arrivals net t resp hidle htrig hall ht hne hnet]
  refine ⟨?_, ?_, hserver _ rfl, ?_, ?_⟩
  · simp [drainedQueues, processQueue, hq, truthy, hnewtok]
  · simp [retriesOf]
  · simp [refresh_store, getItem_setItem]
  · simp [refresh_store, getItem_setItem]

/-- C3 witness. -/
theorem spec_C3_witness :
    truthy (getItem ([("accessToken", "old"), ("expiresIn", "50"),
        ("refreshToken", "rt0")] : LocalStorage) "accessToken") = true
    ∧ isAuthenticated [("accessToken", "old"), ("expiresIn", "50"),
        ("refreshToken", "rt0")] 60 = false
    ∧ retriesOf (runRefreshCycle
        ⟨false, [], [("accessToken", "old"), ("expiresIn", "50"), ("refreshToken", "rt0")]⟩
        ⟨some ⟨401, none⟩, "Unauthorized", some ⟨1, false, some "Bearer old"⟩⟩
        [⟨some ⟨401, none⟩, "Unauthorized", some ⟨2, false, some "Bearer old"⟩⟩]
        (fun _ => Except.ok ⟨"na", "nr", "Bearer", 99⟩)).events =
      [setAuthHeader (markRetry
        ⟨some ⟨401, none⟩, "Unauthorized", some ⟨1, false, some "Bearer old"⟩⟩) "na"] := by
  refine ⟨by decide, by decide, ?_⟩
  exact (spec_C3_refresh_success_replay
    ⟨false, [], [("accessToken", "old"), ("expiresIn", "50"), ("refreshToken", "rt0")]⟩
    ⟨some ⟨401, none⟩, "Unauthorized", some ⟨1, false, some "Bearer old"⟩⟩
    [⟨some ⟨401, none⟩, "Unauthorized", some ⟨2, false, some "Bearer old"⟩⟩]
    (fun _ => Except.ok ⟨"na", "nr", "Bearer", 99⟩)
    (fun req => if req.authHeader = some "Bearer na" then Except.ok () else
      Except.error ⟨some ⟨401, none⟩, "Unauthorized", some req⟩)
    "rt0" ⟨"na", "nr", "Bearer", 99⟩ 60
    rfl rfl (by decide) (by decide) (by decide) (by decide) rfl (by decide) rfl
    (by decide) (fun req hreq => by simp [hreq])).2.1

/-- C4: when the refresh attempt fails, the token store is cleared, every
queued request is rejected with the refresh error itself, the
authentication-failure signal is raised, and the redirect to the
unauthenticated state is scheduled after the 2000 ms grace delay; when no
refresh token is stored the failure is immediate, with zero refresh network
calls.  The cleared store reads back `none` on all four token keys. -/
theorem spec_C4_refresh_failure_teardown (s0 : CoordState) (trigger : AxiosErr)
    (arrivals : List AxiosErr)
    (net : String → Except AxiosErr AuthenticationResponse)
    (hidle : s0.isRefreshing = false) (hq : s0.requestQueue = [])
    (htrig : fresh401 trigger = true)
    (hall : ∀ e ∈ arrivals, fresh401 e = true) :
    (truthy (getItem s0.store "refreshToken") = false →
      (runRefreshCycle s0 trigger [] net).refreshNetCalls = 0
      ∧ (runRefreshCycle s0 trigger [] net).events =
          [.queueDrained [], .storeCleared,
           .authFailureSignaled "Your session has expired. Please log in again."
             "/login" 2000,
           .triggerRejected .noRefreshToken]
      ∧ (runRefreshCycle s0 trigger [] net).state.store = clearTokens s0.store)
    ∧ (∀ (t : String) (aerr : AxiosErr),
        getItem s0.store "refreshToken" = some t → t ≠ "" →
        net t = Except.error aerr →
        (runRefreshCycle s0 trigger arrivals net).events =
          [.queueDrained ((arrivals.map markRetry).map
              (fun q => ReplayAction.rejectQueued q (.network aerr))),
           .storeCleared,
           .authFailureSignaled "Your session has expired. Please log in again."
             "/login" 2000,
           .triggerRejected (.network aerr)]
        ∧ (runRefreshCycle s0 trigger arrivals net).state.store = clearTokens s0.store)
    ∧ (∀ st : LocalStorage,
        getItem (clearTokens st) "accessToken" = none
        ∧ getItem (clearTokens st) "refreshToken" = none
        ∧ getItem (clearTokens st) "tokenType" = none
        ∧ getItem (clearTokens st) "expiresIn" = none) := by
  refine ⟨fun hno => ?_, fun t aerr ht hne hnet => ?_, fun st => ?_⟩
  · have hbody := runRefreshBody_noToken s0.store net hno
    rw [runRefreshCycle_failure s0 trigger [] net .noRefreshToken 0
      hidle htrig (by simp) hbody]
    refine ⟨rfl, ?_, rfl⟩
    simp [processQueue, hq]
  · have hbody := runRefreshBody_truthy s0.store net t ht hne
    rw [hnet] at hbody
    rw [runRefreshCycle_failure s0 trigger arrivals net (.network aerr) 1
      hidle htrig hall hbody]
    refine ⟨?_, rfl⟩
    simp [processQueue, hq]
  · refine ⟨?_, ?_, ?_, ?_⟩ <;> simp [getItem_clearTokens]

/-- C4 witness. -/
theorem spec_C4_witness :
    truthy (getItem ([("accessToken", "old")] : LocalStorage) "refreshToken") = false
    ∧ (runRefreshCycle ⟨false, [], [("accessToken", "old")]⟩
        ⟨some ⟨401, none⟩, "Unauthorized", some ⟨1, false, none⟩⟩ []
        (fun _ => Except.error ⟨none, "down", none⟩)).refreshNetCalls = 0 := by
  refine ⟨by decide, ?_⟩
  exact ((spec_C4_refresh_failure_teardown ⟨false, [], [("accessToken", "old")]⟩
    ⟨some ⟨401, none⟩, "Unauthorized", some ⟨1, false, none⟩⟩ []
    (fun _ => Except.error ⟨none, "down", none⟩)
    rfl rfl (by decide) (by decide)).1 (by decide)).1

end BlogFrontend
